import Mathlib

/-!
# Verification of the mounties-activity-publisher pipeline core

A shallow embedding, in Lean 4, of the pipeline orchestration and idempotency
model of the mounties-activity-publisher repository: the search / scrape /
publish stage handlers, the Firestore-backed entity store operations, the
reconciliation (catchup) job, the processing gate, and the Discord message
formatter.

Conventions of the embedding:
* The document store (Firestore) is modelled as association lists from
  document id to document, a document being an association list from field
  name to a `PyValue`.
* External collaborators (HTTP fetch, HTML extraction, the Cloud Tasks
  enqueue API, the Discord send API, the Firestore read of the config
  document) are modelled as oracles in an `Env` record; stage handlers are
  state-passing functions on a `World` that carries the store plus logs of
  all enqueue attempts/successes and Discord sends.
* Python `datetime` values appear in the code only through the calendar date
  that `pytz` reports for them in the fixed display zone
  `America/Los_Angeles`; `PyDateTime` records exactly that observation.
* Python exceptions become `Except String`; handler boundaries catch them
  and turn them into `error` results, as the source does.
-/

/-- Model of a timezone-aware Python `datetime`.  The code observes a
datetime only via `astimezone(pytz.timezone('America/Los_Angeles'))`
followed by `strftime('%Y-%m-%d')`, so the model records the calendar date
that the external `pytz` collaborator returns for the fixed display zone. -/
structure PyDateTime where
  laYear : Nat
  laMonth : Nat
  laDay : Nat
deriving DecidableEq, Repr

/-- A Firestore field value as the Python layer produces it.
`vNull` is Python `None`; `vServerTime` is `firestore.SERVER_TIMESTAMP`. -/
inductive PyValue where
  | vStr (s : String)
  | vStrList (l : List String)
  | vTime (t : PyDateTime)
  | vRef (collection : String) (id : String)
  | vServerTime
  | vNull
deriving DecidableEq, Repr

/-- Python `s.rstrip('/')`: drop all trailing slash characters. -/
def rstripSlash (s : String) : String :=
  String.mk ((s.data.reverse.dropWhile (fun c => c = '/')).reverse)

/-- Python `s.split('/')` on the character list: split at every slash,
keeping empty segments; the result is never empty (Python
`''.split('/') == ['']`). -/
def splitOnSlash : List Char → List (List Char)
  | [] => [[]]
  | ch :: rest =>
    match splitOnSlash rest with
    | [] => [[]]
    | seg :: segs =>
      if ch = '/' then [] :: seg :: segs else (ch :: seg) :: segs

/-- Python `s.rstrip('/').split('/')[-1]`: the final path segment. -/
def lastPathSegment (s : String) : String :=
  String.mk ((splitOnSlash (rstripSlash s).data).getLastD [])

/-- Python `f"{parts[-2]}_{parts[-1]}"` over `permalink.rstrip('/').split('/')`
(src/src/models.py, `Place.document_id`).  The negative index `parts[-2]`
raises `IndexError` when the permalink has fewer than two path segments,
so the derivation is fallible. -/
def lastTwoPathSegments (s : String) : Except String String :=
  let parts := splitOnSlash (rstripSlash s).data
  if parts.length < 2 then .error "IndexError: list index out of range"
  else .ok (String.mk (parts.getD (parts.length - 2) []) ++ "_" ++
    String.mk (parts.getLastD []))

/-- src/src/models.py `Leader`. -/
structure Leader where
  leader_permalink : String
  name : String
deriving DecidableEq, Repr

/-- src/src/models.py `Leader.document_id`. -/
def Leader.document_id (l : Leader) : String := lastPathSegment l.leader_permalink

/-- src/src/models.py `Place`. -/
structure Place where
  place_permalink : String
  name : String
deriving DecidableEq, Repr

/-- src/src/models.py `Place.document_id`: raises (`.error`) on a
permalink with fewer than two path segments. -/
def Place.document_id (p : Place) : Except String String :=
  lastTwoPathSegments p.place_permalink

/-- src/src/models.py `Activity`. -/
structure Activity where
  activity_permalink : String
  title : String
  description : String
  difficulty_rating : List String
  activity_date : PyDateTime
  place : Place
  leader : Leader
  activity_type : Option String := none
  branch : Option String := none
  discord_message_id : Option String := none
deriving DecidableEq, Repr

/-- src/src/models.py `Activity.document_id`. -/
def Activity.document_id (a : Activity) : String := lastPathSegment a.activity_permalink

/-- A Firestore document: field name to value. -/
abbrev Doc := List (String × PyValue)

/-- Read a field of a document (Python `data.get(k)` / `data[k]`). -/
def dGet (d : Doc) (k : String) : Option PyValue :=
  (d.find? (fun e => e.1 = k)).map (fun e => e.2)

/-- Overwrite one field of a document, keeping the rest
(Firestore `doc_ref.update({k: v})`): replace the field binding if present
(field names are unique within a document), append it otherwise. -/
def dSet (d : Doc) (k : String) (v : PyValue) : Doc :=
  match d with
  | [] => [(k, v)]
  | e :: rest => if e.1 = k then (k, v) :: rest else e :: dSet rest k v

/-- A keyed collection of documents. -/
abbrev Coll := List (String × Doc)

/-- Look a document up by id. -/
def alookup (c : Coll) (k : String) : Option Doc :=
  (c.find? (fun e => e.1 = k)).map (fun e => e.2)

/-- Replace the document at `k` if present (document ids are unique within
a collection), append it otherwise (Firestore `doc_ref.set(data)`). -/
def aset (c : Coll) (k : String) (d : Doc) : Coll :=
  match c with
  | [] => [(k, d)]
  | e :: rest => if e.1 = k then (k, d) :: rest else e :: aset rest k d

/-- The entity store: the three collections the pipeline writes, plus the
single merged bookkeeping document (src/src/db). -/
structure Store where
  activities : Coll
  leaders : Coll
  places : Coll
  bookkeeping : Doc
deriving DecidableEq, Repr

def Store.empty : Store := ⟨[], [], [], []⟩

/-- src/src/db/activities.py `activity_exists`. -/
def activity_exists (st : Store) (document_id : String) : Bool :=
  (alookup st.activities document_id).isSome

/-- The `data` dict built by src/src/db/activities.py `create_activity` /
`update_activity` before the `None`-filter: every key present, an absent
`discord_message_id` contributing Python `None`.  The `place_ref` id is
`activity.place.document_id` (activities.py line 45); by the time the
pipeline builds this dict the place upsert (scraper.py step 5, which runs
first) has already forced that same value successfully, so the `.error`
default below is unreachable in the pipeline and the construction is kept
total. -/
def activityData (a : Activity) : Doc :=
  [("activity_permalink", .vStr a.activity_permalink),
   ("title", .vStr a.title),
   ("description", .vStr a.description),
   ("difficulty_rating", .vStrList a.difficulty_rating),
   ("activity_date", .vTime a.activity_date),
   ("leader_ref", .vRef "leaders" a.leader.document_id),
   ("place_ref", .vRef "places"
     (match a.place.document_id with
      | .ok pid => pid
      | .error _ => "")),
   ("discord_message_id",
     match a.discord_message_id with
     | some s => .vStr s
     | none => .vNull)]

/-- Python `{k: v for k, v in data.items() if v is not None}`. -/
def dropNoneFields (d : Doc) : Doc :=
  d.filter (fun e => e.2 ≠ PyValue.vNull)

/-- src/src/db/activities.py `create_activity` on the activities collection:
check existence, raise `ValueError` if present, else `set` the
`None`-filtered data dict. -/
def create_activity_coll (c : Coll) (a : Activity) : Except String Coll :=
  if (alookup c a.document_id).isSome then
    .error ("Activity " ++ a.document_id ++ " already exists")
  else
    .ok (aset c a.document_id (dropNoneFields (activityData a)))

/-- src/src/db/activities.py `update_activity` on the activities collection:
raise if absent, else `set` the `None`-filtered data dict. -/
def update_activity_coll (c : Coll) (a : Activity) : Except String Coll :=
  if (alookup c a.document_id).isSome then
    .ok (aset c a.document_id (dropNoneFields (activityData a)))
  else
    .error ("Activity " ++ a.document_id ++ " does not exist")

/-- src/src/db/activities.py `update_discord_message_id` on the activities
collection: raise if absent, else single-field `update`. -/
def update_discord_message_id_coll (c : Coll) (document_id message_id : String) :
    Except String Coll :=
  match alookup c document_id with
  | none => .error ("Activity " ++ document_id ++ " does not exist")
  | some d => .ok (aset c document_id (dSet d "discord_message_id" (.vStr message_id)))

/-- src/src/db/activities.py `create_activity`, lifted to the store. -/
def create_activity (st : Store) (a : Activity) : Except String (String × Store) :=
  match create_activity_coll st.activities a with
  | .error e => .error e
  | .ok c => .ok (a.document_id, { st with activities := c })

/-- src/src/db/activities.py `update_discord_message_id`, lifted to the store. -/
def update_discord_message_id (st : Store) (document_id message_id : String) :
    Except String Store :=
  match update_discord_message_id_coll st.activities document_id message_id with
  | .error e => .error e
  | .ok c => .ok { st with activities := c }

/-- src/src/db/leaders.py `create_or_update_leader` (upsert; the two fields
are never `None`, so the `None`-filter keeps both). Returns the ref id. -/
def create_or_update_leader (st : Store) (l : Leader) : String × Store :=
  (l.document_id,
   { st with leaders := (aset st.leaders l.document_id
       [("leader_permalink", PyValue.vStr l.leader_permalink), ("name", PyValue.vStr l.name)]) })

/-- src/src/db/places.py `create_or_update_place` (upsert).  Its first
line, `doc_id = place.document_id`, raises `IndexError` for a malformed
place permalink; the exception propagates to the caller. -/
def create_or_update_place (st : Store) (p : Place) : Except String (String × Store) :=
  match p.document_id with
  | .error e => .error e
  | .ok doc_id =>
    .ok (doc_id,
      { st with places := (aset st.places doc_id
          [("place_permalink", PyValue.vStr p.place_permalink),
           ("name", PyValue.vStr p.name)]) })

/-- src/src/db/leaders.py `get_leader`.  Documents in the leaders collection
are written only by `create_or_update_leader`, so the two string fields are
read back directly. -/
def get_leader (st : Store) (document_id : String) : Option Leader :=
  match alookup st.leaders document_id with
  | none => none
  | some d =>
    match dGet d "leader_permalink", dGet d "name" with
    | some (.vStr p), some (.vStr n) => some ⟨p, n⟩
    | _, _ => none

/-- src/src/db/places.py `get_place`. -/
def get_place (st : Store) (document_id : String) : Option Place :=
  match alookup st.places document_id with
  | none => none
  | some d =>
    match dGet d "place_permalink", dGet d "name" with
    | some (.vStr p), some (.vStr n) => some ⟨p, n⟩
    | _, _ => none

/-- src/src/db/activities.py `get_activity`: `None` if the document is
absent; a raised `ValueError` (here `.error`) if a referenced leader or
place is missing; otherwise the reconstructed `Activity`, whose
`discord_message_id` comes from `data.get('discord_message_id')`. -/
def get_activity (st : Store) (document_id : String) : Except String (Option Activity) :=
  match alookup st.activities document_id with
  | none => .ok none
  | some data =>
    match dGet data "leader_ref", dGet data "place_ref" with
    | some (.vRef _ lid), some (.vRef _ pid) =>
      match get_leader st lid, get_place st pid with
      | some leader, some place =>
        match dGet data "activity_permalink", dGet data "title",
              dGet data "description", dGet data "difficulty_rating",
              dGet data "activity_date" with
        | some (.vStr permalink), some (.vStr title), some (.vStr desc),
          some (.vStrList diff), some (.vTime date) =>
          .ok (some
            { activity_permalink := permalink
              title := title
              description := desc
              difficulty_rating := diff
              activity_date := date
              place := place
              leader := leader
              discord_message_id :=
                match dGet data "discord_message_id" with
                | some (.vStr s) => some s
                | _ => none })
        | _, _, _, _, _ => .error ("Activity " ++ document_id ++ " is malformed")
      | _, _ =>
        .error ("Activity " ++ document_id ++ " has missing leader or place reference")
    | _, _ => .error ("Activity " ++ document_id ++ " is malformed")

/-- src/src/db/bookkeeping.py `update_search_status`: merge
`search_status` (and `last_search_success` on success) into the
bookkeeping document; failures are swallowed, so the model is total. -/
def update_search_status (st : Store) (status : String) (success : Bool) : Store :=
  let bk := dSet st.bookkeeping "search_status" (.vStr status)
  let bk := if success then dSet bk "last_search_success" .vServerTime else bk
  { st with bookkeeping := bk }

/-- src/src/config.py `DEFAULT_PROCESSING_ENABLED`. -/
def DEFAULT_PROCESSING_ENABLED : Bool := true

/-- What a read of the `system/config` document can observe: the read
raises, or the document is absent, or it is present without the
`processing_enabled` field, or it is present with a boolean value. -/
abbrev ConfigRead := Except String (Option (Option Bool))

/-- src/src/config.py `is_processing_enabled`: default `True` if the
document doesn't exist or lacks the field, the stored boolean otherwise,
and `True` (fail open) when the read itself raises; the `try/except` means
no exception ever escapes, which the total `Bool` return type reflects. -/
def is_processing_enabled (read : ConfigRead) : Bool :=
  match read with
  | .error _ => DEFAULT_PROCESSING_ENABLED
  | .ok none => DEFAULT_PROCESSING_ENABLED
  | .ok (some none) => DEFAULT_PROCESSING_ENABLED
  | .ok (some (some enabled)) => enabled

/-- Python `pattern in s`: substring containment, i.e. the pattern's
character list is an infix of the string's character list. -/
def pyContains (s pattern : String) : Bool :=
  decide (pattern.data <:+: s.data)

/-- src/src/discord_client.py `get_activity_type_emoji`; a `None` or empty
activity type is falsy and yields the empty string, and the emoji map has
the single entry for "Backcountry Skiing". -/
def get_activity_type_emoji (activity_type : Option String) : String :=
  match activity_type with
  | none => ""
  | some t =>
    if t = "" then ""
    else if t = "Backcountry Skiing" then "⛷️"
    else ""

/-- Python `s.startswith(pre)`: the pattern's characters are a prefix of
the string's characters. -/
def pyStartsWith (s pre : String) : Bool :=
  pre.data.isPrefixOf s.data

/-- src/src/discord_client.py `get_difficulty_emojis`. -/
def get_difficulty_emojis (difficulty_rating : String) : String :=
  (if pyStartsWith difficulty_rating "M1-M2" then "🟦"
   else if pyStartsWith difficulty_rating "M3" then "🟥"
   else if pyStartsWith difficulty_rating "M2" then "◆"
   else if pyStartsWith difficulty_rating "M1" then "🟢"
   else "")
  ++ (if pyContains difficulty_rating "Glacier" then "🧊" else "")

/-- src/src/discord_client.py `format_difficulty_ratings`. -/
def format_difficulty_ratings (difficulty_ratings : List String) : String :=
  String.intercalate ", "
    (difficulty_ratings.map (fun rating =>
      let emojis := get_difficulty_emojis rating
      if emojis ≠ "" then emojis ++ " " ++ rating else rating))

/-- Left-pad a numeral with zeros to the given width. -/
def padZero (width n : Nat) : String :=
  let s := toString n
  String.mk (List.replicate (width - s.length) '0') ++ s

/-- Python `strftime('%Y-%m-%d')` on the Pacific-converted datetime:
four-digit year, two-digit month and day, dash-separated. -/
def strftimeYMD (t : PyDateTime) : String :=
  padZero 4 t.laYear ++ "-" ++ padZero 2 t.laMonth ++ "-" ++ padZero 2 t.laDay

/-- src/src/discord_client.py `format_activity_message`: date converted to
`America/Los_Angeles` and rendered `%Y-%m-%d`; the title link rendered
`[title](permalink)`; the leader and place links rendered `[name](<url>)`
(the `<...>` wrapping is what suppresses Discord link previews). -/
def format_activity_message (a : Activity) : String :=
  let date_str := strftimeYMD a.activity_date
  let activity_emoji := get_activity_type_emoji a.activity_type
  let activity_emoji_str := if activity_emoji ≠ "" then " " ++ activity_emoji else ""
  let difficulty_str := format_difficulty_ratings a.difficulty_rating
  let line1 := "📆 " ++ date_str ++ activity_emoji_str ++ " [" ++ a.title ++ "](" ++
    a.activity_permalink ++ ")"
  let line2 := "Leader: [" ++ a.leader.name ++ "](<" ++ a.leader.leader_permalink ++
    ">) at [" ++ a.place.name ++ "](<" ++ a.place.place_permalink ++ ">)"
  let line3 := "Difficulty Ratings: " ++ difficulty_str
  line1 ++ "\n" ++ line2 ++ "\n" ++ line3

/-- The fields the detail-page extractor (src/src/parsers/detail_parser.py)
produces besides the permalink; `parse_activity_detail` combines them with
the given url. -/
structure DetailFields where
  title : String
  description : String
  difficulty_rating : List String
  activity_date : PyDateTime
  leader : Leader
  place : Place
deriving DecidableEq, Repr

/-- The external collaborators, as pure oracles.  Enqueue oracles are
indexed by the number of prior attempts on that queue, so that any pattern
of per-item failures can be expressed; the Discord send oracle is indexed
by the number of prior send calls. -/
structure Env where
  fetchSearchResults : Nat → String → Except String String
  parseSearchResults : String → List String × Option String
  fetchPage : String → Except String String
  parseDetail : String → Except String DetailFields
  readConfig : ConfigRead
  sendDiscord : Nat → Except String String
  enqueueScrapeOk : Nat → Bool
  enqueueSearchOk : Nat → Bool
  enqueuePublishOk : Nat → Bool

/-- src/src/parsers/detail_parser.py `parse_activity_detail`: the extractor
output plus `activity_permalink = activity_url`; `discord_message_id`,
`activity_type` and `branch` keep their dataclass default `None`. -/
def parse_activity_detail (env : Env) (html activity_url : String) :
    Except String Activity :=
  match env.parseDetail html with
  | .error e => .error e
  | .ok f =>
    .ok { activity_permalink := activity_url
          title := f.title
          description := f.description
          difficulty_rating := f.difficulty_rating
          activity_date := f.activity_date
          place := f.place
          leader := f.leader }

/-- The observable world a stage invocation acts on: the store, the log of
work-item enqueue attempts and successes per queue, and the Discord sends.
`sendCount` counts chat-send invocations; `discordSent` records the
contents of the sends that returned a message id. -/
structure World where
  store : Store
  scrapeAttempts : List String
  scrapeQueued : List String
  searchAttempts : List (Nat × String)
  searchQueued : List (Nat × String)
  publishAttempts : List String
  publishQueued : List String
  sendCount : Nat
  discordSent : List String
deriving DecidableEq, Repr

def World.init (st : Store) : World := ⟨st, [], [], [], [], [], [], 0, []⟩

/-- src/src/tasks/client.py `enqueue_scrape_task`, which may raise
(oracle `false`); the attempt is always logged. -/
def enqueueScrape (env : Env) (w : World) (url : String) : Bool × World :=
  let ok := env.enqueueScrapeOk w.scrapeAttempts.length
  (ok, { w with
          scrapeAttempts := w.scrapeAttempts ++ [url]
          scrapeQueued := if ok then w.scrapeQueued ++ [url] else w.scrapeQueued })

/-- src/src/tasks/client.py `enqueue_search_task`. -/
def enqueueSearch (env : Env) (w : World) (start_index : Nat) (activity_type : String) :
    Bool × World :=
  let ok := env.enqueueSearchOk w.searchAttempts.length
  (ok, { w with
          searchAttempts := w.searchAttempts ++ [(start_index, activity_type)]
          searchQueued := if ok then w.searchQueued ++ [(start_index, activity_type)]
                          else w.searchQueued })

/-- src/src/tasks/client.py `enqueue_publish_task`. -/
def enqueuePublish (env : Env) (w : World) (activity_id : String) : Bool × World :=
  let ok := env.enqueuePublishOk w.publishAttempts.length
  (ok, { w with
          publishAttempts := w.publishAttempts ++ [activity_id]
          publishQueued := if ok then w.publishQueued ++ [activity_id]
                           else w.publishQueued })

/-- src/src/discord_client.py `send_discord_message`: one API call; a
message id on 2xx, a raised error otherwise (no message recorded then). -/
def send_discord_message (env : Env) (w : World) (content : String) :
    Except String String × World :=
  match env.sendDiscord w.sendCount with
  | .ok message_id =>
    (.ok message_id,
     { w with sendCount := w.sendCount + 1, discordSent := w.discordSent ++ [content] })
  | .error e => (.error e, { w with sendCount := w.sendCount + 1 })

/-- Result dict of src/src/functions/searcher.py `searcher_handler`. -/
inductive SearchResult where
  | skipped (reason : String)
  | success (activities_found : Nat) (has_next_page : Bool)
  | error (msg : String)
deriving DecidableEq, Repr

/-- Result dict of src/src/functions/scraper.py `scraper_handler`. -/
inductive ScrapeResult where
  | success (activity_id : String)
  | skipped (activity_id : String) (reason : String)
  | error (msg : String)
deriving DecidableEq, Repr

/-- Result dict of src/src/functions/publisher.py `publisher_handler`. -/
inductive PublishResult where
  | success (message_id : String)
  | skipped (message_id : String) (reason : String)
  | error (msg : String)
deriving DecidableEq, Repr

/-- Result dict of src/src/functions/catchup.py `publishing_catchup_handler`. -/
inductive CatchupResult where
  | success (activities_found tasks_enqueued : Nat)
  | error (msg : String)
deriving DecidableEq, Repr

/-- The fan-out loop of src/src/functions/searcher.py (lines 68-85): for
each activity url, derive the id, skip it if it already exists, otherwise
attempt to enqueue a scrape task; an enqueue exception is logged and the
loop continues (the success counter it maintains is only logged, never
returned, so it is not modelled). -/
def enqueueNewScrapes (env : Env) (w : World) : List String → World
  | [] => w
  | url :: rest =>
    let activity_id := lastPathSegment url
    if activity_exists w.store activity_id then
      enqueueNewScrapes env w rest
    else
      enqueueNewScrapes env (enqueueScrape env w url).2 rest

/-- src/src/functions/searcher.py `searcher_handler`. -/
def searcher_handler (env : Env) (w : World) (start_index : Nat)
    (activity_type : String) : SearchResult × World :=
  if !(is_processing_enabled env.readConfig) then
    (.skipped "Processing is currently disabled", w)
  else
    match env.fetchSearchResults start_index activity_type with
    | .error e =>
      (.error e, { w with store := update_search_status w.store ("Red: " ++ e) false })
    | .ok html =>
      let (activity_urls, next_page_url) := env.parseSearchResults html
      let w := enqueueNewScrapes env w activity_urls
      let w := match next_page_url with
        | some _ => (enqueueSearch env w (start_index + 20) activity_type).2
        | none => w
      let w := { w with store := update_search_status w.store "Green" true }
      (.success activity_urls.length next_page_url.isSome, w)

/-- src/src/functions/scraper.py `scraper_handler`.  Notes kept from the
source: there is no processing-gate check anywhere in this handler; the
`firestore.transactional` wrapper around `create_activity` is the identity
for a single sequential invocation, so the sequential semantics is
`create_activity` itself; a publish-enqueue failure is swallowed; the
`except ValueError` branch turns an "already exists" error into `skipped`
and re-raises anything else into the outer handler (an `error` result). -/
def scraper_handler (env : Env) (w : World) (activity_url : Option String) :
    ScrapeResult × World :=
  match activity_url with
  | none => (.error "Missing required parameter: activity_url", w)
  | some url =>
    if url = "" then (.error "Missing required parameter: activity_url", w)
    else
      let activity_id := lastPathSegment url
      if activity_exists w.store activity_id then
        (.skipped activity_id "Activity already exists in Firestore", w)
      else
        match env.fetchPage url with
        | .error e => (.error e, w)
        | .ok html =>
          match parse_activity_detail env html url with
          | .error e => (.error e, w)
          | .ok activity =>
            let w := { w with store := (create_or_update_leader w.store activity.leader).2 }
            match create_or_update_place w.store activity.place with
            | .error e => (.error e, w)
            | .ok (_, store1) =>
              let w := { w with store := store1 }
              match create_activity w.store activity with
              | .ok (aid, store2) =>
                let w := (enqueuePublish env { w with store := store2 } aid).2
                (.success aid, w)
              | .error e =>
                if pyContains e "already exists" then
                  (.skipped activity.document_id "Activity already exists in Firestore", w)
                else
                  (.error e, w)

/-- src/src/discord_client.py `publish_activity_to_discord`: format, send,
return the message id. -/
def publish_activity_to_discord (env : Env) (w : World) (a : Activity) :
    Except String String × World :=
  send_discord_message env w (format_activity_message a)

/-- src/src/functions/publisher.py `publisher_handler`.  The
already-published check is Python truthiness of `discord_message_id`:
`None` and the empty string both fall through to a fresh send. -/
def publisher_handler (env : Env) (w : World) (activity_id : Option String) :
    PublishResult × World :=
  match activity_id with
  | none => (.error "Missing required parameter: activity_id", w)
  | some aid =>
    if aid = "" then (.error "Missing required parameter: activity_id", w)
    else
      match get_activity w.store aid with
      | .error e => (.error e, w)
      | .ok none => (.error ("Activity not found: " ++ aid), w)
      | .ok (some activity) =>
        if (activity.discord_message_id.getD "") ≠ "" then
          (.skipped (activity.discord_message_id.getD "")
             "Activity already published to Discord", w)
        else
          match publish_activity_to_discord env w activity with
          | (.error e, w') => (.error e, w')
          | (.ok message_id, w') =>
            match update_discord_message_id w'.store aid message_id with
            | .error e => (.error e, w')
            | .ok store2 => (.success message_id, { w' with store := store2 })

/-- Modelled from the spec: `get_unpublished_activity_ids` is imported by
src/src/db/__init__.py and called by the Reconciliation Job
(src/src/functions/catchup.py line 42), but no definition of it exists
under src (src/src/db/activities.py is a revision that lacks it).  Spec
section 4.5 step 1: "Query the Entity Store for all Event keys where
`message_id` is absent." -/
def get_unpublished_activity_ids (st : Store) : List String :=
  (st.activities.filter (fun e => (dGet e.2 "discord_message_id").isNone)).map
    (fun e => e.1)

/-- The fan-out loop of src/src/functions/catchup.py (lines 46-55): attempt
one publish enqueue per id, count the successes (`tasks_enqueued += 1`),
continue past failures. -/
def enqueuePublishAll (env : Env) (w : World) : List String → World × Nat
  | [] => (w, 0)
  | aid :: rest =>
    let (ok, w') := enqueuePublish env w aid
    let (w'', n) := enqueuePublishAll env w' rest
    (w'', (if ok then 1 else 0) + n)

/-- src/src/functions/catchup.py `publishing_catchup_handler`. -/
def publishing_catchup_handler (env : Env) (w : World) : CatchupResult × World :=
  let activity_ids := get_unpublished_activity_ids w.store
  let (w', tasks_enqueued) := enqueuePublishAll env w activity_ids
  (.success activity_ids.length tasks_enqueued, w')

/-- How many documents a collection holds under a key (one, for a store
kept consistent; the count lets duplicate-write claims be stated). -/
def countKey (c : Coll) (k : String) : Nat :=
  (c.filter (fun e => e.1 = k)).length

/-- Modelled from the spec: the store-side granularity of Event creation in
Scrape Stage.  src/src/functions/scraper.py (lines 90-99) wraps
`create_activity` in `firestore.transactional` and passes the transaction
down, and tests/test_transactional.py asserts that `create_activity` then
performs its existence `get` and its `set` against that one transaction;
the transaction-accepting revision of `create_activity` itself (and the
`get_transaction` it relies on, imported by src/src/db/__init__.py) is not
under src.  Spec section 4.3 step 6: "within a single atomic
read-modify-write against the Event's key, check non-existence, then
write".  Accordingly `txnCreate` is one atomic action on the activities
collection, while the handler's earlier plain `activity_exists` check
(scraper.py line 65) is a separate, non-transactional read.  Page fetch and
parsing are pure and identical for two deliveries of the same URL, and the
leader/place upserts touch other collections, so the interleaving-relevant
trace of one scrape delivery is `[checkExists, txnCreate]`. -/
inductive ScrapeStep where
  | checkExists
  | txnCreate
deriving DecidableEq, Repr

/-- One concurrent scrape delivery: its remaining trace and, once the
handler returned, its result. -/
structure ThreadSt where
  prog : List ScrapeStep
  result : Option ScrapeResult
deriving DecidableEq, Repr

/-- A scrape delivery that has not run yet. -/
def scrapeThread : ThreadSt := ⟨[.checkExists, .txnCreate], none⟩

/-- Execute one atomic action of a scrape delivery against the activities
collection.  `checkExists` seeing the document ends the delivery with the
handler's `skipped` return (scraper.py lines 65-72); `txnCreate` either
creates and ends with `success`, or observes the already-exists error and
takes the handler's `except ValueError` branch (scraper.py lines 114-121),
ending with `skipped` when the message contains "already exists". -/
def stepThread (a : Activity) (c : Coll) (t : ThreadSt) : Coll × ThreadSt :=
  match t.prog with
  | [] => (c, t)
  | .checkExists :: rest =>
    if (alookup c a.document_id).isSome then
      (c, ⟨[], some (.skipped a.document_id "Activity already exists in Firestore")⟩)
    else
      (c, ⟨rest, t.result⟩)
  | .txnCreate :: _ =>
    match create_activity_coll c a with
    | .ok c' => (c', ⟨[], some (.success a.document_id)⟩)
    | .error e =>
      (c, ⟨[],
        some (if pyContains e "already exists" then
                .skipped a.document_id "Activity already exists in Firestore"
              else .error e)⟩)

/-- Interleave two concurrent scrape deliveries for the same URL under an
arbitrary schedule: each schedule entry names the thread that takes the
next atomic store action (a no-op once that thread has returned). -/
def run2 (a : Activity) : List Bool → Coll → ThreadSt → ThreadSt →
    Coll × ThreadSt × ThreadSt
  | [], c, t1, t2 => (c, t1, t2)
  | b :: rest, c, t1, t2 =>
    if b then
      let (c', t1') := stepThread a c t1
      run2 a rest c' t1' t2
    else
      let (c', t2') := stepThread a c t2
      run2 a rest c' t1 t2'

/-- The Event-document write operations src/src/db/activities.py exposes:
full-document create, full-document update, and the single-field
`discord_message_id` update. -/
inductive DbOp where
  | createA (a : Activity)
  | updateA (a : Activity)
  | setMsgId (document_id message_id : String)
deriving DecidableEq, Repr

/-- Apply one write to the activities collection; an operation that raises
(`ValueError`) leaves the collection unchanged, the exception propagating
to the caller. -/
def applyDbOp (c : Coll) : DbOp → Coll
  | .createA a =>
    match create_activity_coll c a with
    | .ok c' => c'
    | .error _ => c
  | .updateA a =>
    match update_activity_coll c a with
    | .ok c' => c'
    | .error _ => c
  | .setMsgId k m =>
    match update_discord_message_id_coll c k m with
    | .ok c' => c'
    | .error _ => c

/-- Run a sequence of Event-document writes. -/
def applyDbOps (c : Coll) (ops : List DbOp) : Coll :=
  ops.foldl applyDbOp c

/-- A db write carries no `discord_message_id` payload: full-document
writes built from an `Activity` whose `discord_message_id` is `None` (as
every activity the scraper parses is), or the single-field update (whose
payload is an actual identifier string, not `None`). -/
def writesNoMsgNone : DbOp → Prop
  | .createA a => a.discord_message_id = none
  | .updateA a => a.discord_message_id = none
  | .setMsgId _ _ => True

/-- Concrete sample extractor output used by closed theorems. -/
def fields0 : DetailFields :=
  { title := "T"
    description := "D"
    difficulty_rating := ["M1 Ski"]
    activity_date := ⟨2026, 2, 10⟩
    leader := ⟨"u/members/lead-1", "L"⟩
    place := ⟨"u/rp/cat/pl-1", "P"⟩ }

/-- Concrete sample detail-page URL; its derived key is `act-1`. -/
def url0 : String := "u/activities/act-1"

/-- A concrete environment whose config document stores
`processing_enabled = False` (the Processing Gate is disabled), with
benign oracles everywhere else. -/
def envGateOff : Env :=
  { fetchSearchResults := fun _ _ => .ok "shtml"
    parseSearchResults := fun _ => ([], none)
    fetchPage := fun _ => .ok "dhtml"
    parseDetail := fun _ => .ok fields0
    readConfig := .ok (some (some false))
    sendDiscord := fun _ => .ok "999"
    enqueueScrapeOk := fun _ => true
    enqueueSearchOk := fun _ => true
    enqueuePublishOk := fun _ => true }

/-- The same environment with the gate enabled (config document absent). -/
def envGateOn : Env :=
  { envGateOff with readConfig := .ok none }

/-- The Event document of a concrete store state in which `act-1` carries a
present but empty `discord_message_id`. -/
def actDocEmptyMsg : Doc :=
  [("activity_permalink", .vStr "u/activities/act-1"),
   ("title", .vStr "T"),
   ("description", .vStr "D"),
   ("difficulty_rating", .vStrList ["M1 Ski"]),
   ("activity_date", .vTime ⟨2026, 2, 10⟩),
   ("leader_ref", .vRef "leaders" "lead-1"),
   ("place_ref", .vRef "places" "cat_pl-1"),
   ("discord_message_id", .vStr "")]

/-- A concrete store holding `act-1` (with the empty-string message id) and
its referenced leader and place. -/
def storeEmptyMsg : Store :=
  { activities := [("act-1", actDocEmptyMsg)]
    leaders := [("lead-1",
      [("leader_permalink", .vStr "u/members/lead-1"), ("name", .vStr "L")])]
    places := [("cat_pl-1",
      [("place_permalink", .vStr "u/rp/cat/pl-1"), ("name", .vStr "P")])]
    bookkeeping := [] }

/-- A concrete activity used by closed theorems about the formatter. -/
def act9 : Activity :=
  { activity_permalink := "u/activities/act-1"
    title := "T"
    description := "D"
    difficulty_rating := ["M1 Ski"]
    activity_date := ⟨2026, 2, 10⟩
    place := ⟨"u/rp/cat/pl-1", "P"⟩
    leader := ⟨"u/members/lead-1", "L"⟩ }

/-- The tail of a formatted activity message after the `📆 ` marker and the
rendered Pacific date: everything from the optional activity-type emoji on. -/
def formatTail (a : Activity) : String :=
  (if get_activity_type_emoji a.activity_type ≠ "" then
    " " ++ get_activity_type_emoji a.activity_type
   else "") ++
  " [" ++ a.title ++ "](" ++ a.activity_permalink ++ ")" ++ "\n" ++
  "Leader: [" ++ a.leader.name ++ "](<" ++ a.leader.leader_permalink ++
  ">) at [" ++ a.place.name ++ "](<" ++ a.place.place_permalink ++ ">)" ++ "\n" ++
  "Difficulty Ratings: " ++ format_difficulty_ratings a.difficulty_rating

/-- A second Event document, with no `discord_message_id` field at all
(the shape `create_activity` writes for a freshly scraped activity). -/
def actDocNoMsg : Doc :=
  [("activity_permalink", .vStr "u/activities/act-2"),
   ("title", .vStr "T2"),
   ("description", .vStr "D"),
   ("difficulty_rating", .vStrList ["M1 Ski"]),
   ("activity_date", .vTime ⟨2026, 3, 1⟩),
   ("leader_ref", .vRef "leaders" "lead-1"),
   ("place_ref", .vRef "places" "cat_pl-1")]

/-- A concrete store with one Event carrying a message id field and one
Event lacking it. -/
def storeCatchup : Store :=
  { storeEmptyMsg with
      activities := [("act-1", actDocEmptyMsg), ("act-2", actDocNoMsg)] }

/-- `envGateOn` with a search page listing two activity URLs and a
next-page link. -/
def envSearch : Env :=
  { envGateOn with
      parseSearchResults := fun _ =>
        (["u/activities/act-1", "u/activities/act-2"], some "n") }

/-- `envSearch` with every scrape enqueue failing. -/
def envSearchFail : Env :=
  { envSearch with enqueueScrapeOk := fun _ => false }

/-- `envGateOn` with every publish enqueue failing. -/
def envPubFail : Env :=
  { envGateOn with enqueuePublishOk := fun _ => false }

/-- `actDocEmptyMsg` with a real (non-empty) message id. -/
def actDocMsg999 : Doc :=
  (actDocEmptyMsg.take 7) ++ [("discord_message_id", .vStr "999")]

/-- A store whose single Event has already been published
(`discord_message_id = "999"`). -/
def storePublished : Store :=
  { storeEmptyMsg with activities := [("act-1", actDocMsg999)] }

/-- What `get_activity` reconstructs for `act-1` in `storePublished`. -/
def actPublished : Activity :=
  { act9 with discord_message_id := some "999" }

/-- The thread ended with the handler's `success` return for this Event. -/
def scrapeSucc (a : Activity) (t : ThreadSt) : Prop :=
  t.result = some (.success a.document_id)

/-- The thread ended with the handler's benign-duplicate `skipped` return. -/
def scrapeSkip (a : Activity) (t : ThreadSt) : Prop :=
  t.result = some (.skipped a.document_id "Activity already exists in Firestore")

/-- The states a scrape delivery passes through: not yet run, past the
plain existence check, or returned (with `success` or `skipped`). -/
def threadShape (a : Activity) (t : ThreadSt) : Prop :=
  (t.prog = [ScrapeStep.checkExists, ScrapeStep.txnCreate] ∧ t.result = none) ∨
  (t.prog = [ScrapeStep.txnCreate] ∧ t.result = none) ∨
  (t.prog = [] ∧ (scrapeSucc a t ∨ scrapeSkip a t))

/-- Invariant of two concurrent scrape deliveries for the same fresh key:
at most one succeeds, the key is stored exactly when one has succeeded,
and a delivery only skips once the document exists. -/
def raceInv (a : Activity) (c : Coll) (t1 t2 : ThreadSt) : Prop :=
  threadShape a t1 ∧ threadShape a t2 ∧
  ¬ (scrapeSucc a t1 ∧ scrapeSucc a t2) ∧
  ((¬ scrapeSucc a t1 ∧ ¬ scrapeSucc a t2) → countKey c a.document_id = 0) ∧
  ((scrapeSucc a t1 ∨ scrapeSucc a t2) → countKey c a.document_id = 1) ∧
  (scrapeSkip a t1 → countKey c a.document_id = 1) ∧
  (scrapeSkip a t2 → countKey c a.document_id = 1)

theorem pyContains_iff (s pattern : String) :
    pyContains s pattern = true ↔ pattern.data <:+: s.data := by
  simp [pyContains]

theorem alookup_nil (k : String) : alookup [] k = none := rfl

theorem alookup_cons (k' : String) (d : Doc) (c : Coll) (k : String) :
    alookup ((k', d) :: c) k = if k' = k then some d else alookup c k := by
  by_cases h : k' = k <;> simp [alookup, List.find?_cons, h]

theorem alookup_aset_self (c : Coll) (k : String) (d : Doc) :
    alookup (aset c k d) k = some d := by
  induction c with
  | nil => simp [aset, alookup, List.find?_cons]
  | cons e rest ih =>
    by_cases h : e.1 = k
    · simp [aset, h, alookup, List.find?_cons]
    · simpa [aset, h, alookup, List.find?_cons] using ih

theorem alookup_aset_ne (c : Coll) (k k' : String) (d : Doc) (h : k ≠ k') :
    alookup (aset c k d) k' = alookup c k' := by
  induction c with
  | nil => simp [aset, alookup, List.find?_cons, h]
  | cons e rest ih =>
    by_cases he : e.1 = k
    · have he' : e.1 ≠ k' := by rw [he]; exact h
      simp [aset, he, alookup, List.find?_cons, he', h]
    · by_cases he' : e.1 = k'
      · simp [aset, he, alookup, List.find?_cons, he', Ne.symm h]
      · simpa [aset, he, alookup, List.find?_cons, he'] using ih

theorem dGet_nil (k : String) : dGet [] k = none := rfl

theorem dGet_cons (k' : String) (v : PyValue) (d : Doc) (k : String) :
    dGet ((k', v) :: d) k = if k' = k then some v else dGet d k := by
  by_cases h : k' = k <;> simp [dGet, List.find?_cons, h]

theorem dGet_dSet_self (d : Doc) (k : String) (v : PyValue) :
    dGet (dSet d k v) k = some v := by
  induction d with
  | nil => simp [dSet, dGet, List.find?_cons]
  | cons e rest ih =>
    by_cases h : e.1 = k
    · simp [dSet, h, dGet, List.find?_cons]
    · simpa [dSet, h, dGet, List.find?_cons] using ih

theorem dGet_dSet_ne (d : Doc) (k k' : String) (v : PyValue) (h : k ≠ k') :
    dGet (dSet d k v) k' = dGet d k' := by
  induction d with
  | nil => simp [dSet, dGet, List.find?_cons, h]
  | cons e rest ih =>
    by_cases he : e.1 = k
    · have he' : e.1 ≠ k' := by rw [he]; exact h
      simp [dSet, he, dGet, List.find?_cons, he', h]
    · by_cases he' : e.1 = k'
      · simp [dSet, he, dGet, List.find?_cons, he', Ne.symm h]
      · simpa [dSet, he, dGet, List.find?_cons, he'] using ih

theorem countKey_nil (k : String) : countKey [] k = 0 := rfl

theorem alookup_eq_none_iff (c : Coll) (k : String) :
    alookup c k = none ↔ countKey c k = 0 := by
  induction c with
  | nil => simp [alookup, countKey]
  | cons e rest ih =>
    by_cases h : e.1 = k
    · simp [alookup, countKey, List.find?_cons, h]
    · rw [show alookup (e :: rest) k = alookup rest k by
        rcases e with ⟨ek, ed⟩; simpa using (alookup_cons ek ed rest k).trans (if_neg h)]
      simpa [countKey, h] using ih

theorem countKey_aset_fresh (c : Coll) (k : String) (d : Doc)
    (h : alookup c k = none) : countKey (aset c k d) k = countKey c k + 1 := by
  induction c with
  | nil => simp [aset, countKey]
  | cons e rest ih =>
    rw [alookup_cons] at h
    by_cases he : e.1 = k
    · rcases e with ⟨ek, ed⟩
      simp only at he
      simp [he] at h
    · rcases e with ⟨ek, ed⟩
      simp only at he
      simp only [if_neg he] at h
      simp [aset, he, countKey] at ih ⊢
      exact ih h

theorem pyContains_of_eq (pre suf : String) {s pat : String}
    (h : s = pre ++ pat ++ suf) : pyContains s pat = true := by
  rw [pyContains_iff, h]
  exact ⟨pre.data, suf.data, by simp [String.data_append]⟩

/-- C8: the Processing Gate read (`is_processing_enabled`,
src/src/config.py) returns `true` when the flag document is absent, the
stored boolean when the document carries one, and `true` (fails open) when
the read itself raises; it also defaults to `true` when the document exists
without the field, and its total `Bool` result type is the image of the
`try/except` that keeps any exception from reaching the caller. -/
theorem c8_gate_read_fails_open :
    (∀ e : String, is_processing_enabled (.error e) = true) ∧
    is_processing_enabled (.ok none) = true ∧
    (∀ b : Bool, is_processing_enabled (.ok (some (some b))) = b) ∧
    is_processing_enabled (.ok (some none)) = true :=
  ⟨fun _ => rfl, rfl, fun _ => rfl, rfl⟩

/-- C2: with the Processing Gate disabled (`processing_enabled = false` in
the config document), Search Stage returns `skipped` leaving the world
untouched, but Scrape Stage — whose handler contains no gate check at all —
proceeds: on a fresh URL it returns `success`, writes the Event into the
store, and enqueues a publish work item.  This exhibits the divergence
between the code and both the spec and pause_processing.py's own docstring
("This will cause searcher and scraper to skip processing new tasks"). -/
theorem c2_gate_disabled_scraper_still_proceeds :
    searcher_handler envGateOff (World.init Store.empty) 0 "Backcountry Skiing"
      = (.skipped "Processing is currently disabled", World.init Store.empty) ∧
    (scraper_handler envGateOff (World.init Store.empty) (some url0)).1
      = .success "act-1" ∧
    activity_exists
      (scraper_handler envGateOff (World.init Store.empty) (some url0)).2.store
      "act-1" = true ∧
    (scraper_handler envGateOff (World.init Store.empty) (some url0)).2.publishAttempts
      = ["act-1"] := by
  refine ⟨rfl, by decide, by decide, by decide⟩

set_option maxRecDepth 8000 in
/-- C9 counterexample: for a concrete Event, the formatted message embeds
the title link as `[T](u/activities/act-1)` — without the `<...>` wrapping
that suppresses a link preview — so "every embedded link ... is wrapped" is
false for the activity-title link. -/
theorem c9_counterexample_title_link_not_wrapped :
    pyContains (format_activity_message act9) "[T](u/activities/act-1)" = true ∧
    pyContains (format_activity_message act9) "[T](<u/activities/act-1>)" = false := by
  refine ⟨by decide, by decide⟩

/-- C9 (amended): the formatted message renders the occurrence date
converted to the fixed display time zone (`America/Los_Angeles`) in
`YYYY-MM-DD` form right after the `📆 ` marker, and the leader and place
links are wrapped as `[name](<url>)` so the chat client does not unfurl a
preview; the activity-title link, however, is embedded un-wrapped as
`[title](url)`. -/
theorem c9_amended_message_format (a : Activity) :
    format_activity_message a = "📆 " ++ strftimeYMD a.activity_date ++ formatTail a ∧
    pyContains (format_activity_message a)
      ("[" ++ a.leader.name ++ "](<" ++ a.leader.leader_permalink ++ ">)") = true ∧
    pyContains (format_activity_message a)
      ("[" ++ a.place.name ++ "](<" ++ a.place.place_permalink ++ ">)") = true ∧
    pyContains (format_activity_message a)
      ("[" ++ a.title ++ "](" ++ a.activity_permalink ++ ")") = true := by
  refine ⟨?_, ?_, ?_, ?_⟩
  · simp only [format_activity_message, formatTail]
    apply String.ext
    simp only [String.data_append, List.append_assoc]
  · have h : format_activity_message a =
        ("📆 " ++ strftimeYMD a.activity_date ++
          (if get_activity_type_emoji a.activity_type ≠ "" then
            " " ++ get_activity_type_emoji a.activity_type else "") ++
          " [" ++ a.title ++ "](" ++ a.activity_permalink ++ ")" ++ "\n" ++ "Leader: ") ++
        ("[" ++ a.leader.name ++ "](<" ++ a.leader.leader_permalink ++ ">)") ++
        (" at [" ++ a.place.name ++ "](<" ++ a.place.place_permalink ++ ">)" ++ "\n" ++
          "Difficulty Ratings: " ++ format_difficulty_ratings a.difficulty_rating) := by
      simp only [format_activity_message]
      rw [show ("Leader: [" : String) = "Leader: " ++ "[" by decide,
          show (">) at [" : String) = ">)" ++ " at [" by decide]
      apply String.ext
      simp only [String.data_append, List.append_assoc]
    exact pyContains_of_eq _ _ h
  · have h : format_activity_message a =
        ("📆 " ++ strftimeYMD a.activity_date ++
          (if get_activity_type_emoji a.activity_type ≠ "" then
            " " ++ get_activity_type_emoji a.activity_type else "") ++
          " [" ++ a.title ++ "](" ++ a.activity_permalink ++ ")" ++ "\n" ++
          "Leader: [" ++ a.leader.name ++ "](<" ++ a.leader.leader_permalink ++
          ">) at ") ++
        ("[" ++ a.place.name ++ "](<" ++ a.place.place_permalink ++ ">)") ++
        ("\n" ++ "Difficulty Ratings: " ++
          format_difficulty_ratings a.difficulty_rating) := by
      simp only [format_activity_message]
      rw [show (">) at [" : String) = ">) at " ++ "[" by decide]
      apply String.ext
      simp only [String.data_append, List.append_assoc]
    exact pyContains_of_eq _ _ h
  · have h : format_activity_message a =
        ("📆 " ++ strftimeYMD a.activity_date ++
          (if get_activity_type_emoji a.activity_type ≠ "" then
            " " ++ get_activity_type_emoji a.activity_type else "") ++ " ") ++
        ("[" ++ a.title ++ "](" ++ a.activity_permalink ++ ")") ++
        ("\n" ++ "Leader: [" ++ a.leader.name ++ "](<" ++ a.leader.leader_permalink ++
          ">) at [" ++ a.place.name ++ "](<" ++ a.place.place_permalink ++ ">)" ++
          "\n" ++ "Difficulty Ratings: " ++
          format_difficulty_ratings a.difficulty_rating) := by
      simp only [format_activity_message]
      rw [show (" [" : String) = " " ++ "[" by decide]
      apply String.ext
      simp only [String.data_append, List.append_assoc]
    exact pyContains_of_eq _ _ h

theorem enqueueScrape_world (env : Env) (w : World) (url : String) :
    (enqueueScrape env w url).2.store = w.store ∧
    (enqueueScrape env w url).2.scrapeAttempts = w.scrapeAttempts ++ [url] ∧
    (enqueueScrape env w url).2.searchAttempts = w.searchAttempts ∧
    (enqueueScrape env w url).2.publishAttempts = w.publishAttempts :=
  ⟨rfl, rfl, rfl, rfl⟩

theorem enqueueNewScrapes_spec (env : Env) (urls : List String) : ∀ w : World,
    (enqueueNewScrapes env w urls).scrapeAttempts
      = w.scrapeAttempts ++
        urls.filter (fun u => !(activity_exists w.store (lastPathSegment u))) ∧
    (enqueueNewScrapes env w urls).store = w.store ∧
    (enqueueNewScrapes env w urls).searchAttempts = w.searchAttempts ∧
    (enqueueNewScrapes env w urls).publishAttempts = w.publishAttempts := by
  induction urls with
  | nil => intro w; simp [enqueueNewScrapes]
  | cons url rest ih =>
    intro w
    by_cases h : activity_exists w.store (lastPathSegment url) = true
    · simpa [enqueueNewScrapes, h, List.filter_cons] using ih w
    · rw [Bool.not_eq_true] at h
      obtain ⟨h1, h2, h3, h4⟩ := ih (enqueueScrape env w url).2
      refine ⟨?_, ?_, ?_, ?_⟩ <;>
        simp [enqueueNewScrapes, h, List.filter_cons, enqueueScrape] at h1 h2 h3 h4 ⊢ <;>
        simp [h1, h2, h3, h4]

theorem searcher_skipped_of_gate_disabled (env : Env) (w : World)
    (start_index : Nat) (activity_type : String)
    (hgate : is_processing_enabled env.readConfig = false) :
    searcher_handler env w start_index activity_type
      = (.skipped "Processing is currently disabled", w) := by
  simp [searcher_handler, hgate]

theorem enqueuePublishAll_spec (env : Env) (ids : List String) : ∀ w : World,
    (enqueuePublishAll env w ids).1.publishAttempts = w.publishAttempts ++ ids ∧
    (enqueuePublishAll env w ids).1.store = w.store ∧
    w.publishQueued.length ≤ (enqueuePublishAll env w ids).1.publishQueued.length ∧
    (enqueuePublishAll env w ids).2
      = (enqueuePublishAll env w ids).1.publishQueued.length - w.publishQueued.length := by
  induction ids with
  | nil => intro w; simp [enqueuePublishAll]
  | cons aid rest ih =>
    intro w
    obtain ⟨h1, h2, h3, h4⟩ := ih (enqueuePublish env w aid).2
    have e1 : (enqueuePublishAll env w (aid :: rest)).1
        = (enqueuePublishAll env (enqueuePublish env w aid).2 rest).1 := by
      simp [enqueuePublishAll]
    have e2 : (enqueuePublishAll env w (aid :: rest)).2
        = (if env.enqueuePublishOk w.publishAttempts.length then 1 else 0)
          + (enqueuePublishAll env (enqueuePublish env w aid).2 rest).2 := by
      simp [enqueuePublishAll, enqueuePublish]
    have hq : (enqueuePublish env w aid).2.publishQueued.length
        = w.publishQueued.length
          + (if env.enqueuePublishOk w.publishAttempts.length then 1 else 0) := by
      simp only [enqueuePublish]
      by_cases hok : env.enqueuePublishOk w.publishAttempts.length = true <;> simp [hok]
    have ha : (enqueuePublish env w aid).2.publishAttempts
        = w.publishAttempts ++ [aid] := rfl
    have hs : (enqueuePublish env w aid).2.store = w.store := rfl
    refine ⟨?_, ?_, ?_, ?_⟩
    · rw [e1, h1, ha]; simp
    · rw [e1, h2, hs]
    · rw [e1]; omega
    · rw [e1, e2, h4]; omega

theorem alookup_eq_of_mem_nodup (c : Coll) (k : String) (d : Doc)
    (hnd : (c.map Prod.fst).Nodup) (hm : (k, d) ∈ c) : alookup c k = some d := by
  induction c with
  | nil => simp at hm
  | cons e rest ih =>
    rcases e with ⟨ek, ed⟩
    simp only [List.map_cons, List.nodup_cons] at hnd
    rcases List.mem_cons.mp hm with h | h
    · rcases h with ⟨rfl, rfl⟩ | _
      · simp [alookup, List.find?_cons]
    · have hne : ek ≠ k := by
        intro he
        exact hnd.1 (he ▸ (List.mem_map_of_mem Prod.fst h))
      rw [show alookup ((ek, ed) :: rest) k = alookup rest k by
        simpa using (alookup_cons ek ed rest k).trans (if_neg hne)]
      exact ih hnd.2 h

theorem mem_get_unpublished_iff (st : Store) (k : String) :
    k ∈ get_unpublished_activity_ids st ↔
      ∃ d, (k, d) ∈ st.activities ∧ dGet d "discord_message_id" = none := by
  simp only [get_unpublished_activity_ids, List.mem_map, List.mem_filter]
  constructor
  · rintro ⟨⟨k', d⟩, ⟨hm, hf⟩, rfl⟩
    exact ⟨d, hm, by simpa [Option.isNone_iff_eq_none] using hf⟩
  · rintro ⟨d, hm, hf⟩
    exact ⟨(k, d), ⟨hm, by simpa [Option.isNone_iff_eq_none] using hf⟩, rfl⟩

theorem get_unpublished_nodup (st : Store)
    (hnd : (st.activities.map Prod.fst).Nodup) :
    (get_unpublished_activity_ids st).Nodup := by
  unfold get_unpublished_activity_ids
  exact hnd.sublist ((List.filter_sublist _).map Prod.fst)

/-- C5: one Reconciliation run attempts exactly one publish enqueue per
Event whose `discord_message_id` is absent (none for Events that have one
— keys being unique in the store), keeps scanning past individual enqueue
failures, and returns `success` with `activities_found` the number of
unpublished Events and `tasks_enqueued` counting exactly the successful
enqueues (the growth of the publish queue). -/
theorem c5_catchup_complete (env : Env) (w : World)
    (hnd : (w.store.activities.map Prod.fst).Nodup) :
    (publishing_catchup_handler env w).1
      = .success (get_unpublished_activity_ids w.store).length
          ((publishing_catchup_handler env w).2.publishQueued.length
            - w.publishQueued.length) ∧
    (publishing_catchup_handler env w).2.publishAttempts
      = w.publishAttempts ++ get_unpublished_activity_ids w.store ∧
    (get_unpublished_activity_ids w.store).Nodup ∧
    (∀ k, k ∈ get_unpublished_activity_ids w.store →
      ∃ d, alookup w.store.activities k = some d ∧
        dGet d "discord_message_id" = none) ∧
    (∀ k d, alookup w.store.activities k = some d →
      (dGet d "discord_message_id").isSome →
      k ∉ get_unpublished_activity_ids w.store) := by
  obtain ⟨h1, h2, h3, h4⟩ :=
    enqueuePublishAll_spec env (get_unpublished_activity_ids w.store) w
  refine ⟨?_, ?_, get_unpublished_nodup w.store hnd, ?_, ?_⟩
  · simp only [publishing_catchup_handler]
    rw [h4]
  · simpa only [publishing_catchup_handler] using h1
  · intro k hk
    obtain ⟨d, hm, hf⟩ := (mem_get_unpublished_iff w.store k).mp hk
    exact ⟨d, alookup_eq_of_mem_nodup _ _ _ hnd hm, hf⟩
  · intro k d hl hsome hk
    obtain ⟨d', hm', hf'⟩ := (mem_get_unpublished_iff w.store k).mp hk
    rw [alookup_eq_of_mem_nodup _ _ _ hnd hm'] at hl
    cases hl
    rw [hf'] at hsome
    simp at hsome

/-- C5 witness: on a store with one Event lacking `discord_message_id`
(`act-2`) and one carrying it (`act-1`), with every publish enqueue
failing, the run still returns `success` with `activities_found = 1` and
`tasks_enqueued = 0`, having attempted exactly `act-2`. -/
theorem c5_catchup_complete_witness :
    (List.map Prod.fst storeCatchup.activities).Nodup ∧
    (publishing_catchup_handler envPubFail (World.init storeCatchup)).1
      = .success 1 0 ∧
    (publishing_catchup_handler envPubFail (World.init storeCatchup)).2.publishAttempts
      = ["act-2"] := by
  have h := c5_catchup_complete envPubFail (World.init storeCatchup) (by decide)
  refine ⟨by decide, ?_, ?_⟩
  · rw [h.1]; decide
  · rw [h.2.1]; decide

/-- C7: batch fan-out is best-effort.  For any enqueue oracle — including
ones that fail on arbitrary items — Search Stage still attempts a scrape
enqueue for every new URL of the page and returns `success` with its
counts, and the Reconciliation run still attempts a publish enqueue for
every unpublished Event and returns `success` with its counts: one item's
failure never aborts the loop. -/
theorem c7_enqueue_failures_do_not_abort (env : Env) (w : World)
    (start_index : Nat) (activity_type html : String)
    (urls : List String) (next : Option String)
    (hgate : is_processing_enabled env.readConfig = true)
    (hfetch : env.fetchSearchResults start_index activity_type = .ok html)
    (hparse : env.parseSearchResults html = (urls, next)) :
    ((searcher_handler env w start_index activity_type).1
        = .success urls.length next.isSome ∧
      ∀ u ∈ urls, activity_exists w.store (lastPathSegment u) = false →
        u ∈ (searcher_handler env w start_index activity_type).2.scrapeAttempts) ∧
    ((∃ n, (publishing_catchup_handler env w).1
        = .success (get_unpublished_activity_ids w.store).length n) ∧
      ∀ k, k ∈ get_unpublished_activity_ids w.store →
        k ∈ (publishing_catchup_handler env w).2.publishAttempts) := by
  obtain ⟨e1, e2, e3, e4⟩ := enqueueNewScrapes_spec env urls w
  have hr : (searcher_handler env w start_index activity_type).1
      = .success urls.length next.isSome := by
    rcases next with _ | nxt <;>
      simp [searcher_handler, hgate, hfetch, hparse, enqueueSearch, e1, e2, e3, e4]
  have hs : (searcher_handler env w start_index activity_type).2.scrapeAttempts
      = w.scrapeAttempts ++
        urls.filter (fun u => !(activity_exists w.store (lastPathSegment u))) := by
    rcases next with _ | nxt <;>
      simp [searcher_handler, hgate, hfetch, hparse, enqueueSearch, e1, e2, e3, e4]
  obtain ⟨h1, _, _, _⟩ :=
    enqueuePublishAll_spec env (get_unpublished_activity_ids w.store) w
  refine ⟨⟨hr, ?_⟩, ⟨⟨_, rfl⟩, ?_⟩⟩
  · intro u hu hnew
    rw [hs]
    refine List.mem_append_right _ ?_
    exact List.mem_filter.mpr ⟨hu, by simp [hnew]⟩
  · intro k hk
    have : (publishing_catchup_handler env w).2.publishAttempts
        = w.publishAttempts ++ get_unpublished_activity_ids w.store := by
      simpa only [publishing_catchup_handler] using h1
    rw [this]
    exact List.mem_append_right _ hk

/-- C7 witness: with every scrape enqueue failing, the Search Stage on the
same page still returns `success` and still attempted the new URL; with
every publish enqueue failing, the Reconciliation run still returns
`success` over its one unpublished Event and still attempted it. -/
theorem c7_enqueue_failures_do_not_abort_witness :
    ((searcher_handler envSearchFail (World.init storeEmptyMsg) 0
        "Backcountry Skiing").1 = .success 2 true ∧
      "u/activities/act-2" ∈ (searcher_handler envSearchFail
        (World.init storeEmptyMsg) 0 "Backcountry Skiing").2.scrapeAttempts) ∧
    "act-2" ∈ (publishing_catchup_handler envPubFail
        (World.init storeCatchup)).2.publishAttempts := by
  obtain ⟨⟨h1, h2⟩, _⟩ := c7_enqueue_failures_do_not_abort envSearchFail
    (World.init storeEmptyMsg) 0 "Backcountry Skiing" "shtml"
    ["u/activities/act-1", "u/activities/act-2"] (some "n") (by decide) rfl rfl
  refine ⟨⟨by rw [h1]; rfl, h2 _ (by decide) (by decide)⟩, ?_⟩
  have h5 := c7_enqueue_failures_do_not_abort envPubFail
    (World.init storeCatchup) 0 "Backcountry Skiing" "shtml" [] none
    (by decide) rfl rfl
  exact h5.2.2 "act-2" (by decide)

/-- C4: scraping the same URL twice in sequence stores exactly one Event
under the derived key: the first call creates it and returns `success`,
the second call hits the up-front existence check, returns `skipped`, and
performs no store write at all (the world is unchanged).  The extracted
place permalink is assumed well-formed (at least two path segments, so
`Place.document_id` does not raise); a malformed one would abort the first
call with an `error` result before any Event write. -/
theorem c4_scrape_twice_idempotent (env : Env) (w : World) (url html : String)
    (f : DetailFields) (pid : String) (hurl : ¬ url = "")
    (hfetch : env.fetchPage url = .ok html)
    (hparse : env.parseDetail html = .ok f)
    (hplace : f.place.document_id = .ok pid)
    (hfresh : alookup w.store.activities (lastPathSegment url) = none) :
    (scraper_handler env w (some url)).1 = .success (lastPathSegment url) ∧
    (scraper_handler env (scraper_handler env w (some url)).2 (some url)).1
      = .skipped (lastPathSegment url) "Activity already exists in Firestore" ∧
    countKey (scraper_handler env w (some url)).2.store.activities
      (lastPathSegment url) = 1 ∧
    (scraper_handler env (scraper_handler env w (some url)).2 (some url)).2
      = (scraper_handler env w (some url)).2 := by
  have h0 : countKey w.store.activities (lastPathSegment url) = 0 :=
    (alookup_eq_none_iff _ _).mp hfresh
  refine ⟨?_, ?_, ?_, ?_⟩ <;>
    simp [scraper_handler, hurl, hfetch, parse_activity_detail, hparse,
      create_or_update_leader, create_or_update_place, hplace, create_activity,
      create_activity_coll, Activity.document_id, activity_exists, hfresh,
      enqueuePublish, alookup_aset_self, countKey_aset_fresh, h0]

theorem get_activity_set_msg (st : Store) (aid m : String) (a : Activity)
    (h : get_activity st aid = .ok (some a)) :
    ∃ st', update_discord_message_id st aid m = .ok st' ∧
      get_activity st' aid = .ok (some { a with discord_message_id := some m }) := by
  rw [get_activity] at h
  split at h
  next => simp at h
  next data heq =>
    have e1 : dGet (dSet data "discord_message_id" (PyValue.vStr m)) "leader_ref"
        = dGet data "leader_ref" := dGet_dSet_ne _ _ _ _ (by decide)
    have e2 : dGet (dSet data "discord_message_id" (PyValue.vStr m)) "place_ref"
        = dGet data "place_ref" := dGet_dSet_ne _ _ _ _ (by decide)
    have e3 : dGet (dSet data "discord_message_id" (PyValue.vStr m)) "activity_permalink"
        = dGet data "activity_permalink" := dGet_dSet_ne _ _ _ _ (by decide)
    have e4 : dGet (dSet data "discord_message_id" (PyValue.vStr m)) "title"
        = dGet data "title" := dGet_dSet_ne _ _ _ _ (by decide)
    have e5 : dGet (dSet data "discord_message_id" (PyValue.vStr m)) "description"
        = dGet data "description" := dGet_dSet_ne _ _ _ _ (by decide)
    have e6 : dGet (dSet data "discord_message_id" (PyValue.vStr m)) "difficulty_rating"
        = dGet data "difficulty_rating" := dGet_dSet_ne _ _ _ _ (by decide)
    have e7 : dGet (dSet data "discord_message_id" (PyValue.vStr m)) "activity_date"
        = dGet data "activity_date" := dGet_dSet_ne _ _ _ _ (by decide)
    have e8 : dGet (dSet data "discord_message_id" (PyValue.vStr m)) "discord_message_id"
        = some (PyValue.vStr m) := dGet_dSet_self _ _ _
    refine ⟨{ st with activities :=
      (aset st.activities aid (dSet data "discord_message_id" (PyValue.vStr m))) }, ?_, ?_⟩
    · rw [update_discord_message_id, update_discord_message_id_coll, heq]
    · rw [get_activity,
        show alookup (aset st.activities aid
            (dSet data "discord_message_id" (PyValue.vStr m))) aid
          = some (dSet data "discord_message_id" (PyValue.vStr m)) from
        alookup_aset_self _ _ _]
      simp only [e1, e2, e3, e4, e5, e6, e7, e8]
      split at h
      next lcol lid pcol pid hlr hpr =>
        split at h
        next leader place hgl hgp =>
          split at h
          next permalink title desc diff date hp ht hd hdf hdt =>
            have hgl' : get_leader { st with activities :=
                (aset st.activities aid (dSet data "discord_message_id"
                  (PyValue.vStr m))) } lid = some leader := hgl
            have hgp' : get_place { st with activities :=
                (aset st.activities aid (dSet data "discord_message_id"
                  (PyValue.vStr m))) } pid = some place := hgp
            simp only [hlr, hpr, hgl', hgp', hp, ht, hd, hdf, hdt]
            simp only [Except.ok.injEq, Option.some.injEq] at h
            subst h
            rfl
          next => exact absurd h (by simp)
        next hne => exact absurd h (by simp)
      next hne => exact absurd h (by simp)

/-- C1 counterexample: a stored Event whose `discord_message_id` is present
but equal to the empty string.  The claim says Publish Stage then returns
`skipped` with the existing id and never invokes the chat send; the handler
instead treats the empty string as unpublished (Python truthiness of
`activity.discord_message_id`), invokes the send once, and returns
`success` with a fresh id. -/
theorem c1_counterexample_empty_message_id :
    dGet actDocEmptyMsg "discord_message_id" = some (PyValue.vStr "") ∧
    (publisher_handler envGateOn (World.init storeEmptyMsg) (some "act-1")).1
      = .success "999" ∧
    (publisher_handler envGateOn (World.init storeEmptyMsg) (some "act-1")).2.sendCount
      = 1 := by
  refine ⟨by decide, by decide, by decide⟩

/-- C1 (amended): for a stored Event whose `message_id` is a non-empty
string, Publish Stage returns `skipped` with that id and leaves the world —
in particular the send count — untouched; and, provided the chat send
operation returns non-empty identifiers, publishing the same key twice
posts at most one chat message, the second call returning `skipped` with
the identifier the first successful call stored. -/
theorem c1_amended_publish_idempotent :
    (∀ (env : Env) (w : World) (aid : String) (a : Activity) (m : String),
      ¬ aid = "" → get_activity w.store aid = .ok (some a) →
      a.discord_message_id = some m → ¬ m = "" →
      publisher_handler env w (some aid)
        = (.skipped m "Activity already published to Discord", w)) ∧
    (∀ (env : Env) (w : World) (aid : String),
      (∀ n s, env.sendDiscord n = .ok s → ¬ s = "") →
      (publisher_handler env (publisher_handler env w (some aid)).2
          (some aid)).2.discordSent.length ≤ w.discordSent.length + 1 ∧
      (∀ m, (publisher_handler env w (some aid)).1 = .success m →
        (publisher_handler env (publisher_handler env w (some aid)).2 (some aid)).1
          = .skipped m "Activity already published to Discord")) := by
  constructor
  · intro env w aid a m haid hga hmsg hm
    simp [publisher_handler, haid, hga, hmsg, hm]
  · intro env w aid hsend
    by_cases haid : aid = ""
    · simp [publisher_handler, haid]
    · cases hga : get_activity w.store aid with
      | error e =>
        have e1 : publisher_handler env w (some aid) = (.error e, w) := by
          simp [publisher_handler, haid, hga]
        rw [e1]
        simp [e1]
      | ok oa =>
        cases oa with
        | none =>
          have e1 : publisher_handler env w (some aid)
              = (.error ("Activity not found: " ++ aid), w) := by
            simp [publisher_handler, haid, hga]
          rw [e1]
          simp [e1]
        | some a =>
          by_cases hmsg : (a.discord_message_id.getD "") = ""
          · cases hsd : env.sendDiscord w.sendCount with
            | error err =>
              have e1 : publisher_handler env w (some aid)
                  = (.error err, { w with sendCount := w.sendCount + 1 }) := by
                simp [publisher_handler, haid, hga, hmsg,
                  publish_activity_to_discord, send_discord_message, hsd]
              rw [e1]
              have hga2 : get_activity ({ w with
                  sendCount := w.sendCount + 1 } : World).store aid = .ok (some a) := hga
              cases hsd2 : env.sendDiscord (w.sendCount + 1) with
              | error err2 =>
                have e2 : publisher_handler env
                    ({ w with sendCount := w.sendCount + 1 } : World) (some aid)
                    = (.error err2, { w with sendCount := w.sendCount + 1 + 1 }) := by
                  simp [publisher_handler, haid, hga2, hmsg,
                    publish_activity_to_discord, send_discord_message, hsd2]
                rw [e2]
                simp [e1]
              | ok s2 =>
                obtain ⟨st', hupd, hga'⟩ := get_activity_set_msg w.store aid s2 a hga
                have e2 : publisher_handler env
                    ({ w with sendCount := w.sendCount + 1 } : World) (some aid)
                    = (.success s2, { w with sendCount := w.sendCount + 1 + 1, discordSent := w.discordSent ++ [format_activity_message a], store := st' }) := by
                  simp [publisher_handler, haid, hga2, hmsg,
                    publish_activity_to_discord, send_discord_message, hsd2, hupd]
                rw [e2]
                simp [e1]
            | ok s =>
              have hs : ¬ s = "" := hsend _ _ hsd
              obtain ⟨st', hupd, hga'⟩ := get_activity_set_msg w.store aid s a hga
              have e1 : publisher_handler env w (some aid)
                  = (.success s, { w with sendCount := w.sendCount + 1, discordSent := w.discordSent ++ [format_activity_message a], store := st' }) := by
                simp [publisher_handler, haid, hga, hmsg,
                  publish_activity_to_discord, send_discord_message, hsd, hupd]
              have hga2 : get_activity ({ w with sendCount := w.sendCount + 1, discordSent := w.discordSent ++ [format_activity_message a], store := st' } : World).store aid
                  = .ok (some { a with discord_message_id := some s }) := hga'
              have e2 : publisher_handler env
                  ({ w with sendCount := w.sendCount + 1, discordSent := w.discordSent ++ [format_activity_message a], store := st' } : World) (some aid)
                  = (.skipped s "Activity already published to Discord",
                     { w with sendCount := w.sendCount + 1, discordSent := w.discordSent ++ [format_activity_message a], store := st' }) := by
                simp [publisher_handler, haid, hga2, hs]
              rw [e1, e2]
              constructor
              · simp
              · intro m hm
                have hsm : s = m := by simpa using hm
                subst hsm
                rfl
          · have e1 : publisher_handler env w (some aid)
                = (.skipped (a.discord_message_id.getD "")
                    "Activity already published to Discord", w) := by
              simp [publisher_handler, haid, hga, hmsg]
            rw [e1]
            simp [e1]

/-- C1 witness: on a store whose Event carries `discord_message_id = "999"`,
Publish Stage returns `skipped` with `"999"` and leaves the world (hence
the send count) untouched; and the two-call bound instantiated on a store
with one unpublished Event. -/
theorem c1_amended_publish_idempotent_witness :
    publisher_handler envGateOn (World.init storePublished) (some "act-1")
      = (.skipped "999" "Activity already published to Discord",
         World.init storePublished) ∧
    (publisher_handler envGateOn
      (publisher_handler envGateOn (World.init storeCatchup) (some "act-2")).2
      (some "act-2")).2.discordSent.length
      ≤ (World.init storeCatchup).discordSent.length + 1 := by
  constructor
  · exact c1_amended_publish_idempotent.1 envGateOn (World.init storePublished)
      "act-1" actPublished "999" (by decide) rfl rfl (by decide)
  · exact (c1_amended_publish_idempotent.2 envGateOn (World.init storeCatchup)
      "act-2" (fun n s h => by
        simp [envGateOn, envGateOff] at h
        subst h
        decide)).1

/-- C4 witness: scraping the same fresh URL twice against an empty store
creates the Event once, returns `skipped` on the second call, and leaves
exactly one stored document under the derived key. -/
theorem c4_scrape_twice_idempotent_witness :
    (scraper_handler envGateOn (World.init Store.empty) (some url0)).1
      = .success "act-1" ∧
    (scraper_handler envGateOn
      (scraper_handler envGateOn (World.init Store.empty) (some url0)).2
      (some url0)).1 = .skipped "act-1" "Activity already exists in Firestore" ∧
    countKey (scraper_handler envGateOn
      (World.init Store.empty) (some url0)).2.store.activities "act-1" = 1 := by
  obtain ⟨h1, h2, h3, h4⟩ := c4_scrape_twice_idempotent envGateOn
    (World.init Store.empty) url0 "dhtml" fields0 "cat_pl-1" (by decide) rfl rfl
    rfl (by decide)
  have hseg : lastPathSegment url0 = "act-1" := by decide
  exact ⟨by rw [h1, hseg], by rw [h2, hseg], by rw [← hseg]; exact h3⟩

theorem pyContains_already_exists (k : String) :
    pyContains ("Activity " ++ k ++ " already exists") "already exists" = true := by
  apply pyContains_of_eq ("Activity " ++ k ++ " ") ""
  rw [show (" already exists" : String) = " " ++ "already exists" by decide]
  apply String.ext
  simp only [String.data_append, List.append_assoc, List.append_nil]

theorem raceInv_swap (a : Activity) (c : Coll) (t1 t2 : ThreadSt)
    (h : raceInv a c t1 t2) : raceInv a c t2 t1 := by
  obtain ⟨s1, s2, hns, h0, h1, hk1, hk2⟩ := h
  exact ⟨s2, s1, fun hb => hns ⟨hb.2, hb.1⟩, fun hb => h0 ⟨hb.2, hb.1⟩,
    fun hx => h1 hx.symm, hk2, hk1⟩

theorem raceInv_step (a : Activity) (c : Coll) (t1 t2 : ThreadSt)
    (h : raceInv a c t1 t2) :
    raceInv a (stepThread a c t1).1 (stepThread a c t1).2 t2 := by
  obtain ⟨s1, s2, hns, h0, h1, hk1, hk2⟩ := h
  obtain ⟨prog1, res1⟩ := t1
  rcases s1 with ⟨hp, hr⟩ | ⟨hp, hr⟩ | ⟨hp, hr⟩ <;>
    simp only at hp hr
  · -- not yet run: the plain existence check
    subst hp; subst hr
    have hnsucc1 : ¬ scrapeSucc a ⟨[ScrapeStep.checkExists, ScrapeStep.txnCreate],
        none⟩ := by simp [scrapeSucc]
    by_cases hex : (alookup c a.document_id).isSome = true
    · have hcount : countKey c a.document_id ≠ 0 := by
        intro hz
        rw [(alookup_eq_none_iff _ _).mpr hz] at hex
        simp at hex
      have hsucc2 : scrapeSucc a t2 := by
        by_contra hn
        exact hcount (h0 ⟨hnsucc1, hn⟩)
      simp only [stepThread, hex, if_true]
      refine ⟨Or.inr (Or.inr ⟨rfl, Or.inr rfl⟩), s2,
        fun hb => by simpa [scrapeSucc] using hb.1,
        fun hb => absurd hsucc2 hb.2,
        fun _ => h1 (Or.inr hsucc2),
        fun _ => h1 (Or.inr hsucc2), hk2⟩
    · simp only [stepThread, hex, if_false]
      refine ⟨Or.inr (Or.inl ⟨rfl, rfl⟩), s2,
        fun hb => by simpa [scrapeSucc] using hb.1,
        fun hb => h0 ⟨hnsucc1, hb.2⟩,
        fun hx => h1 (Or.inr (hx.resolve_left (by simp [scrapeSucc]))),
        fun hk => by simp [scrapeSkip] at hk, hk2⟩
  · -- past the check: the transactional create
    subst hp; subst hr
    have hnsucc1 : ¬ scrapeSucc a ⟨[ScrapeStep.txnCreate], none⟩ := by
      simp [scrapeSucc]
    by_cases hex : (alookup c a.document_id).isSome = true
    · have hcount : countKey c a.document_id ≠ 0 := by
        intro hz
        rw [(alookup_eq_none_iff _ _).mpr hz] at hex
        simp at hex
      have hsucc2 : scrapeSucc a t2 := by
        by_contra hn
        exact hcount (h0 ⟨hnsucc1, hn⟩)
      simp only [stepThread, create_activity_coll, hex, if_true,
        pyContains_already_exists]
      refine ⟨Or.inr (Or.inr ⟨rfl, Or.inr rfl⟩), s2,
        fun hb => by simpa [scrapeSucc] using hb.1,
        fun hb => absurd hsucc2 hb.2,
        fun _ => h1 (Or.inr hsucc2),
        fun _ => h1 (Or.inr hsucc2), hk2⟩
    · have hlook : alookup c a.document_id = none := by
        cases hl : alookup c a.document_id with
        | none => rfl
        | some d => rw [hl] at hex; simp at hex
      have hz : countKey c a.document_id = 0 := (alookup_eq_none_iff _ _).mp hlook
      have hc1 : countKey (aset c a.document_id
          (dropNoneFields (activityData a))) a.document_id = 1 := by
        rw [countKey_aset_fresh _ _ _ hlook, hz]
      have hnsucc2 : ¬ scrapeSucc a t2 := by
        intro hs
        have := h1 (Or.inr hs)
        omega
      have hnskip2 : ¬ scrapeSkip a t2 := by
        intro hs
        have := hk2 hs
        omega
      simp only [stepThread, create_activity_coll, hex, if_false]
      refine ⟨Or.inr (Or.inr ⟨rfl, Or.inl rfl⟩), s2,
        fun hb => absurd hb.2 hnsucc2,
        fun hb => absurd (by simp [scrapeSucc] : scrapeSucc a
          (⟨[], some (.success a.document_id)⟩ : ThreadSt)) hb.1,
        fun _ => hc1,
        fun hk => by simp [scrapeSkip] at hk,
        fun hk => absurd hk hnskip2⟩
  · -- already returned: stepping is a no-op
    subst hp
    simp only [stepThread]
    exact ⟨Or.inr (Or.inr ⟨rfl, hr⟩), s2, hns, h0, h1, hk1, hk2⟩

theorem raceInv_run2 (a : Activity) (sched : List Bool) :
    ∀ (c : Coll) (t1 t2 : ThreadSt), raceInv a c t1 t2 →
      raceInv a (run2 a sched c t1 t2).1 (run2 a sched c t1 t2).2.1
        (run2 a sched c t1 t2).2.2 := by
  induction sched with
  | nil => intro c t1 t2 h; simpa [run2] using h
  | cons b rest ih =>
    intro c t1 t2 h
    cases b
    · rcases hst : stepThread a c t2 with ⟨c', t2'⟩
      have h2 := raceInv_swap _ _ _ _ (raceInv_step a c t2 t1 (raceInv_swap _ _ _ _ h))
      rw [hst] at h2
      simp only [run2, Bool.false_eq_true, if_false, hst]
      exact ih c' t1 t2' h2
    · rcases hst : stepThread a c t1 with ⟨c', t1'⟩
      have h1 := raceInv_step a c t1 t2 h
      rw [hst] at h1
      simp only [run2, if_true, hst]
      exact ih c' t1' t2 h1

/-- C3: two concurrent scrape deliveries for the same URL against a store
not yet holding the Event, under every interleaving of their store actions
(the plain existence check and the spec-modelled atomic
check-then-write create): never do both succeed, the key is never stored
more than once, and when both deliveries have returned, exactly one ended
`success` and the other ended `skipped` (the handler's benign treatment of
the already-exists condition — not `error`), with exactly one stored Event. -/
theorem c3_concurrent_creation_serialized (a : Activity) (sched : List Bool)
    (c : Coll) (hfresh : alookup c a.document_id = none) :
    ¬ (scrapeSucc a (run2 a sched c scrapeThread scrapeThread).2.1 ∧
       scrapeSucc a (run2 a sched c scrapeThread scrapeThread).2.2) ∧
    countKey (run2 a sched c scrapeThread scrapeThread).1 a.document_id ≤ 1 ∧
    ((run2 a sched c scrapeThread scrapeThread).2.1.prog = [] →
      (run2 a sched c scrapeThread scrapeThread).2.2.prog = [] →
      ((scrapeSucc a (run2 a sched c scrapeThread scrapeThread).2.1 ∧
        scrapeSkip a (run2 a sched c scrapeThread scrapeThread).2.2) ∨
       (scrapeSkip a (run2 a sched c scrapeThread scrapeThread).2.1 ∧
        scrapeSucc a (run2 a sched c scrapeThread scrapeThread).2.2)) ∧
      countKey (run2 a sched c scrapeThread scrapeThread).1 a.document_id = 1) := by
  have hinit : raceInv a c scrapeThread scrapeThread := by
    refine ⟨Or.inl ⟨rfl, rfl⟩, Or.inl ⟨rfl, rfl⟩, ?_, ?_, ?_, ?_, ?_⟩
    · rintro ⟨hs, _⟩; simp [scrapeSucc, scrapeThread] at hs
    · intro _; exact (alookup_eq_none_iff _ _).mp hfresh
    · rintro (hs | hs) <;> simp [scrapeSucc, scrapeThread] at hs
    · intro hs; simp [scrapeSkip, scrapeThread] at hs
    · intro hs; simp [scrapeSkip, scrapeThread] at hs
  obtain ⟨s1, s2, hns, h0, h1, hk1, hk2⟩ :=
    raceInv_run2 a sched c scrapeThread scrapeThread hinit
  refine ⟨hns, ?_, ?_⟩
  · by_cases hsucc : scrapeSucc a (run2 a sched c scrapeThread scrapeThread).2.1 ∨
        scrapeSucc a (run2 a sched c scrapeThread scrapeThread).2.2
    · rw [h1 hsucc]
    · push_neg at hsucc
      rw [h0 ⟨hsucc.1, hsucc.2⟩]
      omega
  · intro hd1 hd2
    have hres1 : scrapeSucc a (run2 a sched c scrapeThread scrapeThread).2.1 ∨
        scrapeSkip a (run2 a sched c scrapeThread scrapeThread).2.1 := by
      rcases s1 with ⟨hp, _⟩ | ⟨hp, _⟩ | ⟨_, hr⟩
      · rw [hd1] at hp; simp at hp
      · rw [hd1] at hp; simp at hp
      · exact hr
    have hres2 : scrapeSucc a (run2 a sched c scrapeThread scrapeThread).2.2 ∨
        scrapeSkip a (run2 a sched c scrapeThread scrapeThread).2.2 := by
      rcases s2 with ⟨hp, _⟩ | ⟨hp, _⟩ | ⟨_, hr⟩
      · rw [hd2] at hp; simp at hp
      · rw [hd2] at hp; simp at hp
      · exact hr
    rcases hres1 with hsucc1 | hskip1
    · rcases hres2 with hsucc2 | hskip2
      · exact absurd ⟨hsucc1, hsucc2⟩ hns
      · exact ⟨Or.inl ⟨hsucc1, hskip2⟩, h1 (Or.inl hsucc1)⟩
    · rcases hres2 with hsucc2 | hskip2
      · exact ⟨Or.inr ⟨hskip1, hsucc2⟩, h1 (Or.inr hsucc2)⟩
      · exfalso
        have hcnt := hk1 hskip1
        have hsome : scrapeSucc a (run2 a sched c scrapeThread scrapeThread).2.1 ∨
            scrapeSucc a (run2 a sched c scrapeThread scrapeThread).2.2 := by
          by_contra hn
          push_neg at hn
          have := h0 ⟨hn.1, hn.2⟩
          omega
        rcases hsome with hs | hs
        · rw [scrapeSucc] at hs
          rw [scrapeSkip] at hskip1
          rw [hskip1] at hs
          simp at hs
        · rw [scrapeSucc] at hs
          rw [scrapeSkip] at hskip2
          rw [hskip2] at hs
          simp at hs

set_option maxRecDepth 8000 in
/-- C3 witness: a concrete interleaving (both existence checks before
either create) of two deliveries of the same URL on the empty store:
thread one creates and succeeds, thread two observes already-exists and
skips, and exactly one Event document is stored. -/
theorem c3_concurrent_creation_serialized_witness :
    ¬ (scrapeSucc act9
        (run2 act9 [true, false, true, false] [] scrapeThread scrapeThread).2.1 ∧
       scrapeSucc act9
        (run2 act9 [true, false, true, false] [] scrapeThread scrapeThread).2.2) ∧
    countKey (run2 act9 [true, false, true, false] [] scrapeThread
      scrapeThread).1 act9.document_id ≤ 1 ∧
    ((scrapeSucc act9
        (run2 act9 [true, false, true, false] [] scrapeThread scrapeThread).2.1 ∧
      scrapeSkip act9
        (run2 act9 [true, false, true, false] [] scrapeThread scrapeThread).2.2) ∨
     (scrapeSkip act9
        (run2 act9 [true, false, true, false] [] scrapeThread scrapeThread).2.1 ∧
      scrapeSucc act9
        (run2 act9 [true, false, true, false] [] scrapeThread scrapeThread).2.2)) ∧
    countKey (run2 act9 [true, false, true, false] [] scrapeThread
      scrapeThread).1 act9.document_id = 1 := by
  have h := c3_concurrent_creation_serialized act9 [true, false, true, false] [] rfl
  exact ⟨h.1, h.2.1, h.2.2 (by decide) (by decide)⟩

theorem dGet_activityDoc_msg_none (a : Activity)
    (ha : a.discord_message_id = none) :
    dGet (dropNoneFields (activityData a)) "discord_message_id" = none := by
  simp [activityData, dropNoneFields, dGet, ha, List.filter, List.find?]

theorem applyDbOp_msg_invariant (c : Coll) (op : DbOp)
    (hop : writesNoMsgNone op)
    (hinv : ∀ k d, alookup c k = some d →
      ∀ v, dGet d "discord_message_id" = some v → ∃ m, v = PyValue.vStr m) :
    ∀ k d, alookup (applyDbOp c op) k = some d →
      ∀ v, dGet d "discord_message_id" = some v → ∃ m, v = PyValue.vStr m := by
  intro k d hl v hv
  cases op with
  | createA a =>
    rw [writesNoMsgNone] at hop
    rw [applyDbOp, create_activity_coll] at hl
    by_cases hex : (alookup c a.document_id).isSome = true
    · rw [if_pos hex] at hl
      exact hinv k d hl v hv
    · rw [if_neg hex] at hl
      by_cases hk : a.document_id = k
      · subst hk
        rw [alookup_aset_self] at hl
        cases hl
        rw [dGet_activityDoc_msg_none a hop] at hv
        cases hv
      · rw [alookup_aset_ne _ _ _ _ hk] at hl
        exact hinv k d hl v hv
  | updateA a =>
    rw [writesNoMsgNone] at hop
    rw [applyDbOp, update_activity_coll] at hl
    by_cases hex : (alookup c a.document_id).isSome = true
    · rw [if_pos hex] at hl
      by_cases hk : a.document_id = k
      · subst hk
        rw [alookup_aset_self] at hl
        cases hl
        rw [dGet_activityDoc_msg_none a hop] at hv
        cases hv
      · rw [alookup_aset_ne _ _ _ _ hk] at hl
        exact hinv k d hl v hv
    · rw [if_neg hex] at hl
      exact hinv k d hl v hv
  | setMsgId k0 m0 =>
    rw [applyDbOp, update_discord_message_id_coll] at hl
    cases hl0 : alookup c k0 with
    | none =>
      rw [hl0] at hl
      exact hinv k d hl v hv
    | some d0 =>
      rw [hl0] at hl
      by_cases hk : k0 = k
      · subst hk
        rw [alookup_aset_self] at hl
        cases hl
        rw [dGet_dSet_self] at hv
        cases hv
        exact ⟨m0, rfl⟩
      · rw [alookup_aset_ne _ _ _ _ hk] at hl
        exact hinv k d hl v hv

theorem applyDbOp_msg_provenance (c : Coll) (op : DbOp) (hop : writesNoMsgNone op)
    (k : String) (d : Doc) (hl : alookup (applyDbOp c op) k = some d)
    (hv : (dGet d "discord_message_id").isSome = true) :
    (∃ d0, alookup c k = some d0 ∧ (dGet d0 "discord_message_id").isSome = true) ∨
    (∃ m, op = DbOp.setMsgId k m) := by
  cases op with
  | createA a =>
    rw [writesNoMsgNone] at hop
    rw [applyDbOp, create_activity_coll] at hl
    by_cases hex : (alookup c a.document_id).isSome = true
    · rw [if_pos hex] at hl
      exact Or.inl ⟨d, hl, hv⟩
    · rw [if_neg hex] at hl
      by_cases hk : a.document_id = k
      · subst hk
        rw [alookup_aset_self] at hl
        cases hl
        rw [dGet_activityDoc_msg_none a hop] at hv
        simp at hv
      · rw [alookup_aset_ne _ _ _ _ hk] at hl
        exact Or.inl ⟨d, hl, hv⟩
  | updateA a =>
    rw [writesNoMsgNone] at hop
    rw [applyDbOp, update_activity_coll] at hl
    by_cases hex : (alookup c a.document_id).isSome = true
    · rw [if_pos hex] at hl
      by_cases hk : a.document_id = k
      · subst hk
        rw [alookup_aset_self] at hl
        cases hl
        rw [dGet_activityDoc_msg_none a hop] at hv
        simp at hv
      · rw [alookup_aset_ne _ _ _ _ hk] at hl
        exact Or.inl ⟨d, hl, hv⟩
    · rw [if_neg hex] at hl
      exact Or.inl ⟨d, hl, hv⟩
  | setMsgId k0 m0 =>
    rw [applyDbOp, update_discord_message_id_coll] at hl
    cases hl0 : alookup c k0 with
    | none =>
      rw [hl0] at hl
      exact Or.inl ⟨d, hl, hv⟩
    | some d0 =>
      rw [hl0] at hl
      by_cases hk : k0 = k
      · subst hk
        exact Or.inr ⟨m0, rfl⟩
      · rw [alookup_aset_ne _ _ _ _ hk] at hl
        exact Or.inl ⟨d, hl, hv⟩

theorem applyDbOps_msg_invariant (ops : List DbOp) : ∀ c : Coll,
    (∀ op ∈ ops, writesNoMsgNone op) →
    (∀ k d, alookup c k = some d →
      ∀ v, dGet d "discord_message_id" = some v → ∃ m, v = PyValue.vStr m) →
    ∀ k d, alookup (applyDbOps c ops) k = some d →
      ∀ v, dGet d "discord_message_id" = some v → ∃ m, v = PyValue.vStr m := by
  induction ops with
  | nil => intro c _ hinv; exact hinv
  | cons op rest ih =>
    intro c hops hinv
    have hstep := applyDbOp_msg_invariant c op (hops op (List.mem_cons_self _ _)) hinv
    have : applyDbOps c (op :: rest) = applyDbOps (applyDbOp c op) rest := rfl
    rw [this]
    exact ih (applyDbOp c op) (fun o ho => hops o (List.mem_cons_of_mem _ ho)) hstep

theorem applyDbOps_msg_provenance (ops : List DbOp) : ∀ c : Coll,
    (∀ op ∈ ops, writesNoMsgNone op) →
    ∀ k d, alookup (applyDbOps c ops) k = some d →
      (dGet d "discord_message_id").isSome = true →
      (∃ d0, alookup c k = some d0 ∧ (dGet d0 "discord_message_id").isSome = true) ∨
      (∃ m, DbOp.setMsgId k m ∈ ops) := by
  induction ops with
  | nil => intro c _ k d hl hv; exact Or.inl ⟨d, hl, hv⟩
  | cons op rest ih =>
    intro c hops k d hl hv
    have : applyDbOps c (op :: rest) = applyDbOps (applyDbOp c op) rest := rfl
    rw [this] at hl
    rcases ih (applyDbOp c op) (fun o ho => hops o (List.mem_cons_of_mem _ ho))
        k d hl hv with ⟨d1, hl1, hv1⟩ | ⟨m, hm⟩
    · rcases applyDbOp_msg_provenance c op (hops op (List.mem_cons_self _ _))
          k d1 hl1 hv1 with h | ⟨m, hm⟩
      · exact Or.inl h
      · exact Or.inr ⟨m, hm ▸ List.mem_cons_self _ _⟩
    · exact Or.inr ⟨m, List.mem_cons_of_mem _ hm⟩

/-- C10: over any sequence of Event-document writes in which every
full-document write carries `discord_message_id = None` (as every activity
the scraper parses does — the dataclass default), the store never holds a
document whose `discord_message_id` field is present but null: when the
field is present its value is an actual string, and its presence can only
have come from a `update_discord_message_id` write for that key.  Hence
"`discord_message_id` absent" is exactly the not-yet-published predicate
that the Reconciliation query and Publish Stage's skip check rely on. -/
theorem c10_message_id_never_null (ops : List DbOp)
    (hops : ∀ op ∈ ops, writesNoMsgNone op) :
    (∀ k d, alookup (applyDbOps [] ops) k = some d →
      ∀ v, dGet d "discord_message_id" = some v → ∃ m, v = PyValue.vStr m) ∧
    (∀ k d, alookup (applyDbOps [] ops) k = some d →
      (dGet d "discord_message_id").isSome = true →
      ∃ m, DbOp.setMsgId k m ∈ ops) := by
  constructor
  · exact applyDbOps_msg_invariant ops [] hops
      (fun k d hl => by rw [alookup_nil] at hl; cases hl)
  · intro k d hl hv
    rcases applyDbOps_msg_provenance ops [] hops k d hl hv with ⟨d0, hl0, _⟩ | h
    · rw [alookup_nil] at hl0; cases hl0
    · exact h

/-- C10 witness: create `act-1` (no message id, the field is dropped), then
set its message id to `"999"`; the field's presence is traced back to the
single-field update. -/
theorem c10_message_id_never_null_witness :
    ∃ m, DbOp.setMsgId "act-1" m
      ∈ [DbOp.createA act9, DbOp.setMsgId "act-1" "999"] := by
  have hops : ∀ op ∈ [DbOp.createA act9, DbOp.setMsgId "act-1" "999"],
      writesNoMsgNone op := by
    intro op hop
    rcases List.mem_cons.mp hop with rfl | hop
    · exact rfl
    · rcases List.mem_cons.mp hop with rfl | hop
      · exact trivial
      · cases hop
  exact (c10_message_id_never_null _ hops).2 "act-1" _ rfl (by decide)
